import Mathlib

/-
Verification of the Spoolman bulk-import core (`spoolman/data_import.py`)
against its natural-language specification.

The embedding models Python values flowing through the importer as the
inductive `Value` (JSON scalars, strings, arrays, objects, plus Python
`None` as `Value.null`; Python floats are modelled as rationals).  A
parsed record is an ordered association list of string keys to values,
mirroring a Python dict produced by `csv.DictReader` or `json.loads`.

The database collaborators (`vendor.create`, `vendor.find`,
`filament.create`, `filament.find`, `spool.create`) are external to the
core and are modelled as an abstract stateful environment `Env σ`; each
per-record pipeline also records the collaborator calls it makes, so
that "creation is never invoked" style properties are expressible.
-/

/-- Model of a Python runtime value as it appears in import records:
`null` is Python `None`; numbers are split into `int` and `float`
(floats modelled as rationals); `arr`/`obj` cover JSON containers. -/
inductive Value where
  | null : Value
  | bool : Bool → Value
  | int : Int → Value
  | float : Rat → Value
  | str : String → Value
  | arr : List Value → Value
  | obj : List (String × Value) → Value

/-- A parsed record: ordered mapping from field-name to raw value,
the shape produced by `csv.DictReader` / `json.loads` for one row. -/
abbrev Record := List (String × Value)

/-- Characters removed by Python `str.strip()` (common whitespace). -/
def isPySpace (c : Char) : Bool :=
  c = ' ' || c = '\t' || c = '\n' || c = '\r' || c = '\x0b' || c = '\x0c'

/-- Model of Python `str.strip()`: drop leading and trailing whitespace. -/
def pyStripStr (s : String) : String :=
  String.mk (((s.toList.dropWhile isPySpace).reverse.dropWhile isPySpace).reverse)

/-- Model of Python `str.lower()` (ASCII case folding). -/
def pyLower (s : String) : String :=
  String.mk (s.toList.map Char.toLower)

/-- Python type name of a value, used in `AttributeError` messages. -/
def pyTypeName : Value → String
  | Value.null => "NoneType"
  | Value.bool _ => "bool"
  | Value.int _ => "int"
  | Value.float _ => "float"
  | Value.str _ => "str"
  | Value.arr _ => "list"
  | Value.obj _ => "dict"

/-- Python truthiness (`if value:`): `None`, `False`, zero, the empty
string and empty containers are falsy; everything else is truthy. -/
def truthy : Value → Bool
  | Value.null => false
  | Value.bool b => b
  | Value.int n => n != 0
  | Value.float q => q != 0
  | Value.str s => s != ""
  | Value.arr xs => !xs.isEmpty
  | Value.obj kvs => !kvs.isEmpty

mutual

/-- Model of Python `str(value)` on import-record values. -/
def pyStrOf : Value → String
  | Value.null => "None"
  | Value.bool b => if b then "True" else "False"
  | Value.int n => toString n
  | Value.float q => toString q
  | Value.str s => s
  | Value.arr xs => "[" ++ pyStrList xs ++ "]"
  | Value.obj kvs => "\x7b" ++ pyStrPairs kvs ++ "\x7d"

/-- Comma-separated stringification of list elements. -/
def pyStrList : List Value → String
  | [] => ""
  | [v] => pyStrOf v
  | v :: vs => pyStrOf v ++ ", " ++ pyStrList vs

/-- Comma-separated stringification of dict entries. -/
def pyStrPairs : List (String × Value) → String
  | [] => ""
  | [(k, v)] => "'" ++ k ++ "': " ++ pyStrOf v
  | (k, v) :: kvs => "'" ++ k ++ "': " ++ pyStrOf v ++ ", " ++ pyStrPairs kvs

end

/-- Digit run to a natural number; fails on an empty or non-digit run. -/
def digitsToNat? (cs : List Char) : Option Nat :=
  if cs = [] then Option.none
  else if cs.all Char.isDigit then
    some (cs.foldl (fun a c => a * 10 + (c.toNat - 48)) 0)
  else Option.none

/-- Optional leading sign applied to an unsigned parser. -/
def signed? (p : List Char → Option Rat) : List Char → Option Rat
  | '+' :: rest => p rest
  | '-' :: rest => (p rest).map Neg.neg
  | cs => p cs

/-- Model of Python `int(s)` for strings: surrounding whitespace, an
optional sign, then decimal digits; anything else fails. -/
def pyInt? (s : String) : Option Int :=
  match (pyStripStr s).toList with
  | '+' :: rest => (digitsToNat? rest).map Int.ofNat
  | '-' :: rest => (digitsToNat? rest).map (fun n => -(n : Int))
  | cs => (digitsToNat? cs).map Int.ofNat

/-- Split a character list at every occurrence of a separator. -/
def splitOnChar (c : Char) : List Char → List (List Char)
  | [] => [[]]
  | x :: xs =>
    match splitOnChar c xs with
    | [] => if x = c then [[], []] else [[x]]
    | y :: ys => if x = c then [] :: y :: ys else (x :: y) :: ys

/-- Unsigned decimal mantissa `digits[.digits]`, `.digits` or `digits.`,
as accepted by Python `float()`. -/
def mantissa? (cs : List Char) : Option Rat :=
  match splitOnChar '.' cs with
  | [whole] => (digitsToNat? whole).map (fun n => (n : Rat))
  | [whole, frac] =>
    if whole = [] && frac = [] then Option.none
    else if whole.all Char.isDigit && frac.all Char.isDigit then
      some ((whole.foldl (fun a c => a * 10 + (c.toNat - 48)) 0 : Nat)
        + (frac.foldl (fun a c => a * 10 + (c.toNat - 48)) 0 : Nat)
          / (10 : Rat) ^ frac.length)
    else Option.none
  | _ => Option.none

/-- Optional signed decimal exponent. -/
def exponent? (cs : List Char) : Option Int :=
  match cs with
  | '+' :: rest => (digitsToNat? rest).map Int.ofNat
  | '-' :: rest => (digitsToNat? rest).map (fun n => -(n : Int))
  | _ => (digitsToNat? cs).map Int.ofNat

/-- Model of Python `float(s)` for strings: whitespace-stripped,
case-folded signed decimal with optional fractional part and exponent
(the special values `inf` and `nan` are outside this model). -/
def pyFloat? (s : String) : Option Rat :=
  signed?
    (fun body =>
      match splitOnChar 'e' body with
      | [m] => mantissa? m
      | [m, ex] =>
        match mantissa? m, exponent? ex with
        | some q, some e => some (q * (10 : Rat) ^ e)
        | _, _ => Option.none
      | _ => Option.none)
    ((pyStripStr s).toList.map Char.toLower)

/-- Python `value is None`. -/
def isNull : Value → Bool
  | Value.null => true
  | _ => false

/-- `value is None or value == ""` from the source: only `None` and the
empty string satisfy it (Python `==` between a non-string and `""` is
false). -/
def isNoneOrEmpty : Value → Bool
  | Value.null => true
  | Value.str s => s == ""
  | _ => false

/-- Embedding of `_parse_value(value, field_type)`: lenient coercion of
a raw record value to the target kind, with null-like markers mapped to
`None` and numeric parse failures degraded to `None`, never an error. -/
def parse_value (value : Value) (field_type : String) : Value :=
  if isNoneOrEmpty value then Value.null
  else
    match value with
    | Value.str s =>
      if pyLower s = "none" ∨ pyLower s = "null" ∨ pyLower s = "" then
        Value.null
      else if field_type = "int" then
        match pyInt? s with
        | some n => Value.int n
        | Option.none => Value.null
      else if field_type = "float" then
        match pyFloat? s with
        | some q => Value.float q
        | Option.none => Value.null
      else if field_type = "bool" then
        Value.bool (pyLower s = "true" || pyLower s = "1" || pyLower s = "yes")
      else Value.str s
    | v => v

/-- `key.startswith("extra.")` from the source, over the char list. -/
def isExtraKey (k : String) : Bool :=
  k.toList.take 6 = "extra.".toList

/-- `key[6:]` from the source: the key with the reserved marker removed. -/
def stripExtraKey (k : String) : String :=
  String.mk (k.toList.drop 6)

/-- `str(value) if value is not None else ""` from the source. -/
def pyStrField : Value → String
  | Value.null => ""
  | v => pyStrOf v

/-- Embedding of `_extract_extra_fields(data)`: the sub-mapping of all
`extra.`-prefixed keys, prefix stripped, values stringified with `None`
becoming the empty string.  The resulting dict is modelled as an
ordered association list, in record iteration order. -/
def extract_extra_fields (data : Record) : List (String × String) :=
  data.filterMap
    (fun p =>
      if isExtraKey p.1 then some (stripExtraKey p.1, pyStrField p.2)
      else Option.none)

/-- `item_data.get(key, dflt)` on a record. -/
def getVal (item : Record) (key : String) (dflt : Value) : Value :=
  match item.find? (fun p => p.1 == key) with
  | some p => p.2
  | Option.none => dflt

/-- `item_data.get(key)` on a record (absent key gives `None`). -/
def getV (item : Record) (key : String) : Value :=
  getVal item key Value.null

/-- Calling `.strip()` on a raw value: succeeds only on strings,
otherwise raises `AttributeError` like Python would. -/
def pyStripVal (v : Value) : Except String String :=
  match v with
  | Value.str s => Except.ok (pyStripStr s)
  | v => Except.error ("'" ++ pyTypeName v ++ "' object has no attribute 'strip'")

/-- `item_data.get(key, "").strip() if item_data.get(key) else None`
from the source: strip only a truthy value, else take `None`. -/
def getTruthyStrip (item : Record) (key : String) : Except String (Option String) :=
  let v := getV item key
  if truthy v then (pyStripVal v).map some else Except.ok Option.none

/-- Embedding of `parse_csv(content)` at the row level: the raw text's
`csv.reader` tokenization is taken as the ordered list of raw rows
(stdlib tokenization is external to the core).  `DictReader.fieldnames`
is `None` exactly when the reader yields no row at all, in which case
the whole batch fails; otherwise the first row is the header and each
later non-blank row becomes one record (missing cells padded with
`None`, per `restval`). -/
def dictRow (fields : List String) (row : List String) : Record :=
  fields.enum.map
    (fun p =>
      (p.2,
        match row.get? p.1 with
        | some v => Value.str v
        | Option.none => Value.null))

/-- Embedding of `parse_csv` over the tokenized row list. -/
def parse_csv (rows : List (List String)) : Except String (List Record) :=
  match rows with
  | [] => Except.error "CSV file has no headers"
  | header :: rest =>
    Except.ok ((rest.filter (fun r => !r.isEmpty)).map (dictRow header))

/-- Embedding of `parse_json(content)` over the decoded value (the
`json.loads` text-to-value decoding is stdlib, external to the core):
the decoded value must be a top-level array, whose elements are
returned verbatim. -/
def parse_json (data : Value) : Except String (List Value) :=
  match data with
  | Value.arr xs => Except.ok xs
  | _ => Except.error "JSON must contain an array of objects"

/-- A vendor row as returned by the `vendor.find` collaborator. -/
structure DBVendor where
  id : Int
  name : String

/-- A filament row as returned by the `filament.find` collaborator,
with its optional associated vendor. -/
structure DBFilament where
  id : Int
  vendor : Option DBVendor

/-- The argument bundle passed to `vendor.create`. -/
structure VendorInput where
  name : String
  comment : Value
  empty_spool_weight : Value
  external_id : Value
  extra : Option (List (String × String))

/-- The argument bundle passed to `filament.create`. -/
structure FilamentInput where
  name : Option String
  vendor_id : Option Int
  material : Option String
  price : Value
  density : Value
  diameter : Value
  weight : Value
  spool_weight : Value
  article_number : Option String
  comment : Value
  settings_extruder_temp : Value
  settings_bed_temp : Value
  color_hex : Value
  multi_color_hexes : Value
  multi_color_direction : Value
  external_id : Value
  extra : Option (List (String × String))

/-- The argument bundle passed to `spool.create`. -/
structure SpoolInput where
  filament_id : Int
  price : Value
  initial_weight : Value
  spool_weight : Value
  used_weight : Value
  remaining_weight : Value
  location : Option String
  lot_nr : Option String
  comment : Value
  archived : Value
  extra : Option (List (String × String))

/-- One collaborator invocation, as observed by a per-record pipeline. -/
inductive Call where
  | vendorFind : Value → Call
  | filamentFind : Value → Call
  | vendorCreate : VendorInput → Call
  | filamentCreate : FilamentInput → Call
  | spoolCreate : SpoolInput → Call

/-- The database collaborators, modelled as an abstract deterministic
stateful environment: each operation reads the store state and returns
its answer together with the successor state; creation may fail with a
store-level error message. -/
structure Env (σ : Type) where
  vendorFind : σ → Value → List DBVendor × σ
  filamentFind : σ → Value → List DBFilament × σ
  vendorCreate : σ → VendorInput → Except String Unit × σ
  filamentCreate : σ → FilamentInput → Except String Unit × σ
  spoolCreate : σ → SpoolInput → Except String Unit × σ

/-- Outcome of processing one record: the record's result (success or
the caught exception's message), the store state afterwards, and the
collaborator calls made on the record's behalf. -/
structure Step (σ : Type) where
  out : Except String Unit
  st : σ
  calls : List Call

/-- The tail every per-record pipeline shares: the entity-creation
collaborator has been invoked with result `pr`; success yields a
created record, a store-level error becomes the record's failure.
`c` is the record's full call history including this creation call. -/
def finishCreate {σ : Type} (pr : Except String Unit × σ) (c : List Call) : Step σ :=
  match pr with
  | (Except.ok _, s2) => ⟨Except.ok (), s2, c⟩
  | (Except.error e, s2) => ⟨Except.error e, s2, c⟩

/-- The body of the `import_vendors` loop for a single record,
translated from the source in statement order: extract and strip the
name (a non-string raises `AttributeError`, caught like any other
per-record failure), coerce `empty_spool_weight`, collect extras,
require a non-empty name, then call `vendor.create`. -/
def processVendor {σ : Type} (env : Env σ) (s : σ) (item : Record) : Step σ :=
  match pyStripVal (getVal item "name" (Value.str "")) with
  | Except.error e => ⟨Except.error e, s, []⟩
  | Except.ok name =>
    let comment := getV item "comment"
    let empty_spool_weight := parse_value (getV item "empty_spool_weight") "float"
    let external_id := getV item "external_id"
    let extra := extract_extra_fields item
    if name = "" then ⟨Except.error "'name' is required", s, []⟩
    else
      let inp : VendorInput :=
        ⟨name, comment, empty_spool_weight, external_id,
          if extra.isEmpty then Option.none else some extra⟩
      finishCreate (env.vendorCreate s inp) [Call.vendorCreate inp]

/-- The body of the `import_filaments` loop for a single record:
extract/coerce all fields, require `density` and `diameter` to have
coerced to non-null, resolve the optional vendor reference by name,
then call `filament.create`. -/
def processFilament {σ : Type} (env : Env σ) (s : σ) (item : Record) : Step σ :=
  match getTruthyStrip item "name" with
  | Except.error e => ⟨Except.error e, s, []⟩
  | Except.ok name =>
  match getTruthyStrip item "material" with
  | Except.error e => ⟨Except.error e, s, []⟩
  | Except.ok material =>
  let price := parse_value (getV item "price") "float"
  let density := parse_value (getV item "density") "float"
  let diameter := parse_value (getV item "diameter") "float"
  let weight := parse_value (getV item "weight") "float"
  let spool_weight := parse_value (getV item "spool_weight") "float"
  match getTruthyStrip item "article_number" with
  | Except.error e => ⟨Except.error e, s, []⟩
  | Except.ok article_number =>
  let comment := getV item "comment"
  let settings_extruder_temp := parse_value (getV item "settings_extruder_temp") "int"
  let settings_bed_temp := parse_value (getV item "settings_bed_temp") "int"
  let color_hex := getV item "color_hex"
  let multi_color_hexes := getV item "multi_color_hexes"
  let multi_color_direction := getV item "multi_color_direction"
  let external_id := getV item "external_id"
  let extra := extract_extra_fields item
  if isNull density then ⟨Except.error "'density' is required", s, []⟩
  else if isNull diameter then ⟨Except.error "'diameter' is required", s, []⟩
  else
    let vendor_name := getV item "vendor.name"
    let resolved : Option Int × σ × List Call :=
      if truthy vendor_name then
        let found := env.vendorFind s vendor_name
        (match found.1 with
          | [] => Option.none
          | f :: _ => some f.id,
          found.2, [Call.vendorFind vendor_name])
      else (Option.none, s, [])
    let inp : FilamentInput :=
      ⟨name, resolved.1, material, price, density, diameter, weight,
        spool_weight, article_number, comment, settings_extruder_temp,
        settings_bed_temp, color_hex, multi_color_hexes,
        multi_color_direction, external_id,
        if extra.isEmpty then Option.none else some extra⟩
    finishCreate (env.filamentCreate resolved.2.1 inp)
      (resolved.2.2 ++ [Call.filamentCreate inp])

/-- Python `f.vendor and f.vendor.name == vendor_name` from the spool
filament filter: the filament's vendor exists and its name equals the
raw `filament.vendor.name` record value (a non-string value compares
unequal to any string). -/
def matchesVendorName (vendor_name : Value) (f : DBFilament) : Bool :=
  match f.vendor with
  | some vr =>
    (match vendor_name with
      | Value.str t => t == vr.name
      | _ => false)
  | Option.none => false

/-- The filament-reference resolution step of `import_spools`: when
`filament.name` is truthy, look candidates up by name, filter them by
the vendor-name qualifier when that is truthy, and take the first
survivor's id; otherwise no lookup happens and the id stays unset.
Returns the id, the store state, and the calls made. -/
def resolveFilamentId {σ : Type} (env : Env σ) (s : σ) (item : Record) :
    Option Int × σ × List Call :=
  let filament_name := getV item "filament.name"
  let vendor_name := getV item "filament.vendor.name"
  if truthy filament_name then
    let found := env.filamentFind s filament_name
    let found2 :=
      if truthy vendor_name then found.1.filter (matchesVendorName vendor_name)
      else found.1
    (match found2 with
      | [] => Option.none
      | f :: _ => some f.id,
      found.2, [Call.filamentFind filament_name])
  else (Option.none, s, [])

/-- The body of the `import_spools` loop for a single record:
extract/coerce all fields, resolve the filament reference, fail the
record with a message naming the attempted reference when it is
unresolved, otherwise call `spool.create`. -/
def processSpool {σ : Type} (env : Env σ) (s : σ) (item : Record) : Step σ :=
  let price := parse_value (getV item "price") "float"
  let initial_weight := parse_value (getV item "initial_weight") "float"
  let spool_weight := parse_value (getV item "spool_weight") "float"
  let used_weight := parse_value (getV item "used_weight") "float"
  let remaining_weight := parse_value (getV item "remaining_weight") "float"
  match getTruthyStrip item "location" with
  | Except.error e => ⟨Except.error e, s, []⟩
  | Except.ok location =>
  match getTruthyStrip item "lot_nr" with
  | Except.error e => ⟨Except.error e, s, []⟩
  | Except.ok lot_nr =>
  let comment := getV item "comment"
  let archived := parse_value (getV item "archived") "bool"
  let extra := extract_extra_fields item
  match resolveFilamentId env s item with
  | (Option.none, s1, calls1) =>
    ⟨Except.error ("Could not find filament: " ++ pyStrOf (getV item "filament.name")),
      s1, calls1⟩
  | (some fid, s1, calls1) =>
    let inp : SpoolInput :=
      ⟨fid, price, initial_weight, spool_weight, used_weight,
        remaining_weight, location, lot_nr, comment, archived,
        if extra.isEmpty then Option.none else some extra⟩
    finishCreate (env.spoolCreate s1 inp) (calls1 ++ [Call.spoolCreate inp])

/-- One failure detail appended by `ImportResult.add_error`. -/
structure ErrEntry where
  row : Nat
  data : Record
  error : String

/-- The aggregate `ImportResult`: success count, failure count, and the
failure details in encounter order. -/
structure ImportResultS where
  created : Nat
  failed : Nat
  errors : List ErrEntry

/-- The shared `for row_index, item_data in enumerate(data, 1)` loop of
the three orchestrators: process each record in order starting at row
index `i`, threading the store state; a success increments `created`, a
failure increments `failed` and appends one failure detail carrying the
row index, the original record and the message. -/
def importLoop {σ : Type} (f : σ → Record → Step σ) :
    Nat → σ → List Record → ImportResultS × σ
  | _, s, [] => (⟨0, 0, []⟩, s)
  | i, s, item :: rest =>
    let st := f s item
    let r := importLoop f (i + 1) st.st rest
    match st.out with
    | Except.ok _ => (⟨r.1.created + 1, r.1.failed, r.1.errors⟩, r.2)
    | Except.error e =>
      (⟨r.1.created, r.1.failed + 1, ⟨i, item, e⟩ :: r.1.errors⟩, r.2)

/-- Embedding of `import_vendors(db, data)`. -/
def import_vendors {σ : Type} (env : Env σ) (s : σ) (data : List Record) :
    ImportResultS × σ :=
  importLoop (processVendor env) 1 s data

/-- Embedding of `import_filaments(db, data)`. -/
def import_filaments {σ : Type} (env : Env σ) (s : σ) (data : List Record) :
    ImportResultS × σ :=
  importLoop (processFilament env) 1 s data

/-- Embedding of `import_spools(db, data)`. -/
def import_spools {σ : Type} (env : Env σ) (s : σ) (data : List Record) :
    ImportResultS × σ :=
  importLoop (processSpool env) 1 s data

/-- `isinstance(data, list)` from `parse_json`. -/
def isList : Value → Bool
  | Value.arr _ => true
  | _ => false

/-- A concrete collaborator environment over a trivial store: every
lookup finds nothing and every creation succeeds.  Used to evaluate
the orchestrators on concrete inputs. -/
def okEnv : Env Unit where
  vendorFind := fun s _ => ([], s)
  filamentFind := fun s _ => ([], s)
  vendorCreate := fun s _ => (Except.ok (), s)
  filamentCreate := fun s _ => (Except.ok (), s)
  spoolCreate := fun s _ => (Except.ok (), s)

/-- A vendor record with a valid non-empty name. -/
def recVendorOk : Record := [("name", Value.str "Acme")]

/-- A vendor record with no name field at all. -/
def recVendorBad : Record := [("comment", Value.str "no name here")]

/-- A filament record with the two required fields present. -/
def recFilamentOk : Record :=
  [("density", Value.str "1.24"), ("diameter", Value.str "1.75")]

/-- A filament record missing `density`. -/
def recFilamentNoDensity : Record :=
  [("name", Value.str "PLA"), ("diameter", Value.str "1.75")]

/-- A filament record with `density` but missing `diameter`. -/
def recFilamentNoDiameter : Record := [("density", Value.str "1.24")]

/-- A filament record whose `vendor.name` is a truthy non-string. -/
def recFilamentIntVendor : Record :=
  [("vendor.name", Value.int 5), ("density", Value.str "1.2"),
    ("diameter", Value.str "1.75")]

/-- A spool record referencing a filament that no lookup resolves. -/
def recSpoolUnresolved : Record := [("filament.name", Value.str "PLA")]

/-- A record carrying two `extra.`-prefixed keys, one with a null value. -/
def recExtra : Record :=
  [("name", Value.str "A"), ("extra.color", Value.str "red"),
    ("extra.note", Value.null)]

theorem importLoop_counts {σ : Type} (f : σ → Record → Step σ) :
    ∀ (data : List Record) (i : Nat) (s : σ),
      (importLoop f i s data).1.created + (importLoop f i s data).1.failed
          = data.length ∧
      (importLoop f i s data).1.errors.length = (importLoop f i s data).1.failed := by
  intro data
  induction data with
  | nil => intro i s; simp [importLoop]
  | cons item rest ih =>
    intro i s
    have h := ih (i + 1) ((f s item).st)
    simp only [importLoop]
    cases hout : (f s item).out with
    | ok u =>
      simp only [hout, List.length_cons]
      exact ⟨by omega, h.2⟩
    | error e =>
      simp only [hout, List.length_cons]
      exact ⟨by omega, by simp [h.2]⟩

theorem importLoop_rows {σ : Type} (f : σ → Record → Step σ) :
    ∀ (data : List Record) (i : Nat) (s : σ),
      (∀ e ∈ (importLoop f i s data).1.errors,
        i ≤ e.row ∧ e.row < i + data.length ∧ data[(e.row - i)]? = some e.data) ∧
      List.Chain' (fun a b => a.row ≤ b.row) (importLoop f i s data).1.errors := by
  intro data
  induction data with
  | nil => intro i s; simp [importLoop]
  | cons item rest ih =>
    intro i s
    have h := ih (i + 1) ((f s item).st)
    simp only [importLoop]
    cases hout : (f s item).out with
    | ok u =>
      simp only [hout]
      constructor
      · intro e he
        obtain ⟨h1, h2, h3⟩ := h.1 e he
        refine ⟨by omega, by simp [List.length_cons]; omega, ?_⟩
        have hx : e.row - i = (e.row - (i + 1)) + 1 := by omega
        rw [hx]
        simpa using h3
      · exact h.2
    | error e0 =>
      simp only [hout]
      constructor
      · intro e he
        rcases List.mem_cons.mp he with heq | hmem
        · subst heq
          refine ⟨le_refl _, by simp [List.length_cons], ?_⟩
          simp
        · obtain ⟨h1, h2, h3⟩ := h.1 e hmem
          refine ⟨by omega, by simp [List.length_cons]; omega, ?_⟩
          have hx : e.row - i = (e.row - (i + 1)) + 1 := by omega
          rw [hx]
          simpa using h3
      · rw [List.chain'_cons']
        refine ⟨?_, h.2⟩
        intro b hb
        have hbm := List.mem_of_mem_head? hb
        have := (h.1 b hbm).1
        simp only []
        omega

/-- C1: for every orchestrator (`import_vendors`, `import_filaments`,
`import_spools`) and every input record list, the returned result
satisfies `created + failed = number of records` and
`failed = length of the errors list`: every record ends in exactly one
of a `created` increment or one failure detail. -/
theorem claim1_total_coverage {σ : Type} (env : Env σ) (s : σ) (data : List Record) :
    ((import_vendors env s data).1.created + (import_vendors env s data).1.failed
        = data.length ∧
      (import_vendors env s data).1.errors.length
        = (import_vendors env s data).1.failed) ∧
    ((import_filaments env s data).1.created + (import_filaments env s data).1.failed
        = data.length ∧
      (import_filaments env s data).1.errors.length
        = (import_filaments env s data).1.failed) ∧
    ((import_spools env s data).1.created + (import_spools env s data).1.failed
        = data.length ∧
      (import_spools env s data).1.errors.length
        = (import_spools env s data).1.failed) :=
  ⟨importLoop_counts (processVendor env) data 1 s,
    importLoop_counts (processFilament env) data 1 s,
    importLoop_counts (processSpool env) data 1 s⟩

/-- C2: for every orchestrator run, each failure detail's `row` is the
1-based position of its originating record in the input (the record it
carries is the one at that position), and the rows are monotonically
non-decreasing in encounter order. -/
theorem claim2_row_numbering {σ : Type} (env : Env σ) (s : σ) (data : List Record) :
    ((∀ e ∈ (import_vendors env s data).1.errors,
        1 ≤ e.row ∧ e.row ≤ data.length ∧ data[(e.row - 1)]? = some e.data) ∧
      List.Chain' (fun a b => a.row ≤ b.row) (import_vendors env s data).1.errors) ∧
    ((∀ e ∈ (import_filaments env s data).1.errors,
        1 ≤ e.row ∧ e.row ≤ data.length ∧ data[(e.row - 1)]? = some e.data) ∧
      List.Chain' (fun a b => a.row ≤ b.row) (import_filaments env s data).1.errors) ∧
    ((∀ e ∈ (import_spools env s data).1.errors,
        1 ≤ e.row ∧ e.row ≤ data.length ∧ data[(e.row - 1)]? = some e.data) ∧
      List.Chain' (fun a b => a.row ≤ b.row) (import_spools env s data).1.errors) := by
  refine ⟨⟨?_, (importLoop_rows (processVendor env) data 1 s).2⟩,
    ⟨?_, (importLoop_rows (processFilament env) data 1 s).2⟩,
    ⟨?_, (importLoop_rows (processSpool env) data 1 s).2⟩⟩ <;>
    · intro e he
      obtain ⟨h1, h2, h3⟩ :=
        (importLoop_rows _ data 1 s).1 e he
      exact ⟨h1, by omega, h3⟩

theorem parse_value_null (ft : String) : parse_value Value.null ft = Value.null := by
  simp [parse_value, isNoneOrEmpty]

theorem parse_value_empty (ft : String) : parse_value (Value.str "") ft = Value.null := by
  simp [parse_value, isNoneOrEmpty]

theorem parse_value_nullmarker (ft : String) (s : String)
    (h : pyLower s = "none" ∨ pyLower s = "null") :
    parse_value (Value.str s) ft = Value.null := by
  by_cases hs : s = ""
  · subst hs; exact parse_value_empty ft
  · have hne : isNoneOrEmpty (Value.str s) = false := by
      simp [isNoneOrEmpty, hs]
    have hcond : pyLower s = "none" ∨ pyLower s = "null" ∨ pyLower s = "" :=
      h.elim Or.inl (fun hh => Or.inr (Or.inl hh))
    simp [parse_value, hne, hcond]

/-- C3: `_parse_value` is total by construction (it is a plain function
into `Value`, with no error outcome); `None` and the empty string map
to null for every target kind, any string whose lowercasing is `none`
or `null` maps to null for every target kind (before any kind-specific
logic), and for the `int`/`float` kinds a string that fails the numeric
parse degrades to null rather than an error. -/
theorem claim3_coercer_lenient :
    (∀ ft, parse_value Value.null ft = Value.null) ∧
    (∀ ft, parse_value (Value.str "") ft = Value.null) ∧
    (∀ ft s, pyLower s = "none" ∨ pyLower s = "null" →
      parse_value (Value.str s) ft = Value.null) ∧
    (∀ s, pyInt? s = Option.none → parse_value (Value.str s) "int" = Value.null) ∧
    (∀ s, pyFloat? s = Option.none → parse_value (Value.str s) "float" = Value.null) := by
  refine ⟨parse_value_null, parse_value_empty, parse_value_nullmarker, ?_, ?_⟩
  · intro s h
    by_cases hs : s = ""
    · subst hs; exact parse_value_empty _
    · have hne : isNoneOrEmpty (Value.str s) = false := by
        simp [isNoneOrEmpty, hs]
      by_cases hnl : pyLower s = "none" ∨ pyLower s = "null" ∨ pyLower s = ""
      · simp [parse_value, hne, hnl]
      · simp [parse_value, hne, hnl, h]
  · intro s h
    by_cases hs : s = ""
    · subst hs; exact parse_value_empty _
    · have hne : isNoneOrEmpty (Value.str s) = false := by
        simp [isNoneOrEmpty, hs]
      by_cases hnl : pyLower s = "none" ∨ pyLower s = "null" ∨ pyLower s = ""
      · simp [parse_value, hne, hnl]
      · simp [parse_value, hne, hnl, h]

/-- Witness for C3 at concrete inputs: the null marker `"None"` under
the `bool` kind, and unparsable numerics under `int` and `float`. -/
theorem claim3_witness :
    parse_value (Value.str "None") "bool" = Value.null ∧
    parse_value (Value.str "abc") "int" = Value.null ∧
    parse_value (Value.str "1.2.3") "float" = Value.null :=
  ⟨claim3_coercer_lenient.2.2.1 "bool" "None" (Or.inl (by decide)),
    claim3_coercer_lenient.2.2.2.1 "abc" (by decide),
    claim3_coercer_lenient.2.2.2.2 "1.2.3" (by decide)⟩

/-- C4 counterexample: the string `"none"` is not one of
`"true"/"1"/"yes"`, yet under the `bool` kind it does not map to false —
the null-marker short-circuit maps it to null first.  This refutes "all
other string inputs map to false" as stated. -/
theorem claim4_counterexample :
    parse_value (Value.str "none") "bool" = Value.null ∧
    parse_value (Value.str "none") "bool" ≠ Value.bool false := by
  constructor
  · exact parse_value_nullmarker "bool" "none" (Or.inl (by decide))
  · intro h
    rw [parse_value_nullmarker "bool" "none" (Or.inl (by decide))] at h
    exact Value.noConfusion h

/-- C4 amended: under the `bool` kind, a string lowercasing to
`"true"`, `"1"` or `"yes"` maps to true; a string lowercasing to
`"none"`, `"null"` or `""` maps to null (the null-marker short-circuit
precedes the boolean logic); every other string maps to false. -/
theorem claim4_bool_kind (s : String) :
    (pyLower s = "true" ∨ pyLower s = "1" ∨ pyLower s = "yes" →
      parse_value (Value.str s) "bool" = Value.bool true) ∧
    (pyLower s = "none" ∨ pyLower s = "null" ∨ pyLower s = "" →
      parse_value (Value.str s) "bool" = Value.null) ∧
    (¬(pyLower s = "true" ∨ pyLower s = "1" ∨ pyLower s = "yes") →
      ¬(pyLower s = "none" ∨ pyLower s = "null" ∨ pyLower s = "") →
      parse_value (Value.str s) "bool" = Value.bool false) := by
  refine ⟨?_, ?_, ?_⟩
  · intro h
    have hs : s ≠ "" := by
      rintro rfl
      rcases h with h | h | h <;> exact absurd h (by decide)
    have hne : isNoneOrEmpty (Value.str s) = false := by
      simp [isNoneOrEmpty, hs]
    have hnl : ¬(pyLower s = "none" ∨ pyLower s = "null" ∨ pyLower s = "") := by
      rcases h with h | h | h <;> simp [h]
    rcases h with h | h | h <;> simp [parse_value, hne, hnl, h]
  · intro h
    by_cases hs : s = ""
    · subst hs; exact parse_value_empty _
    · have hne : isNoneOrEmpty (Value.str s) = false := by
        simp [isNoneOrEmpty, hs]
      simp [parse_value, hne, h]
  · intro hT hN
    have hs : s ≠ "" := by
      rintro rfl
      exact hN (Or.inr (Or.inr (by decide)))
    have hne : isNoneOrEmpty (Value.str s) = false := by
      simp [isNoneOrEmpty, hs]
    rw [not_or, not_or] at hT
    obtain ⟨h1, h2, h3⟩ := hT
    simp [parse_value, hne, hN, h1, h2, h3]

/-- Witness for C4 amended at concrete strings from each class. -/
theorem claim4_witness :
    parse_value (Value.str "YES") "bool" = Value.bool true ∧
    parse_value (Value.str "NULL") "bool" = Value.null ∧
    parse_value (Value.str "off") "bool" = Value.bool false :=
  ⟨(claim4_bool_kind "YES").1 (Or.inr (Or.inr (by decide))),
    (claim4_bool_kind "NULL").2.1 (Or.inr (Or.inl (by decide))),
    (claim4_bool_kind "off").2.2 (by decide) (by decide)⟩

theorem finishCreate_calls {σ : Type} (pr : Except String Unit × σ) (c : List Call) :
    (finishCreate pr c).calls = c := by
  rcases pr with ⟨r, s2⟩; cases r <;> rfl

theorem finishCreate_out_ok {σ : Type} (pr : Except String Unit × σ) (c : List Call)
    (h : pr.1 = Except.ok ()) : (finishCreate pr c).out = Except.ok () := by
  rcases pr with ⟨r, s2⟩
  cases r with
  | ok u => rfl
  | error e => exact absurd h (by simp)

theorem stripExtraKey_inj {a b : String} (ha : isExtraKey a = true)
    (hb : isExtraKey b = true) (h : stripExtraKey a = stripExtraKey b) : a = b := by
  have ha' : a.toList.take 6 = "extra.".toList := of_decide_eq_true ha
  have hb' : b.toList.take 6 = "extra.".toList := of_decide_eq_true hb
  have hd : a.toList.drop 6 = b.toList.drop 6 := congrArg String.toList h
  have hl : a.toList = b.toList := by
    calc a.toList = a.toList.take 6 ++ a.toList.drop 6 :=
          (List.take_append_drop 6 _).symm
    _ = "extra.".toList ++ b.toList.drop 6 := by rw [ha', hd]
    _ = b.toList.take 6 ++ b.toList.drop 6 := by rw [hb']
    _ = b.toList := List.take_append_drop 6 _
  cases a; cases b
  exact congrArg String.mk (by simpa using hl)

theorem mem_extract_iff (data : Record) (p : String × String) :
    p ∈ extract_extra_fields data ↔
      ∃ k v, (k, v) ∈ data ∧ isExtraKey k = true ∧
        p = (stripExtraKey k, pyStrField v) := by
  unfold extract_extra_fields
  rw [List.mem_filterMap]
  constructor
  · rintro ⟨⟨k, v⟩, hm, hf⟩
    by_cases he : isExtraKey k
    · simp only [he, if_true] at hf
      exact ⟨k, v, hm, he, (Option.some.inj hf).symm⟩
    · simp [he] at hf
  · rintro ⟨k, v, hm, he, rfl⟩
    exact ⟨(k, v), hm, by simp [he]⟩

theorem not_mem_extract {data : Record} {k : String} (x : String)
    (hk : isExtraKey k = true) (hnk : k ∉ data.map Prod.fst) :
    (stripExtraKey k, x) ∉ extract_extra_fields data := by
  intro hmem
  obtain ⟨k', v', hm, he', heq⟩ := (mem_extract_iff data _).mp hmem
  have hs : stripExtraKey k = stripExtraKey k' := congrArg Prod.fst heq
  have hkk : k = k' := stripExtraKey_inj hk he' hs
  subst hkk
  exact hnk (List.mem_map.mpr ⟨(k, v'), hm, rfl⟩)

theorem count_extract_one :
    ∀ (data : Record), (data.map Prod.fst).Nodup →
      ∀ k v, (k, v) ∈ data → isExtraKey k = true →
        (extract_extra_fields data).count (stripExtraKey k, pyStrField v) = 1 := by
  intro data
  induction data with
  | nil => intro _ k v h; simp at h
  | cons q rest ih =>
    intro hnd k v hm hk
    rw [List.map_cons, List.nodup_cons] at hnd
    obtain ⟨hq, hrest⟩ := hnd
    rcases List.mem_cons.mp hm with heq | hmem
    · subst heq
      have hstep : extract_extra_fields ((k, v) :: rest)
          = (stripExtraKey k, pyStrField v) :: extract_extra_fields rest := by
        simp [extract_extra_fields, hk]
      rw [hstep, List.count_cons_self,
        List.count_eq_zero_of_not_mem (not_mem_extract _ hk hq)]
    · have hkq : q.1 ≠ k := by
        intro h
        exact hq (h ▸ List.mem_map.mpr ⟨(k, v), hmem, rfl⟩)
      have hrec := ih hrest k v hmem hk
      by_cases he : isExtraKey q.1
      · have hstep : extract_extra_fields (q :: rest)
            = (stripExtraKey q.1, pyStrField q.2) :: extract_extra_fields rest := by
          simp [extract_extra_fields, he]
        rw [hstep, List.count_cons_of_ne, hrec]
        intro hcontra
        exact hkq (stripExtraKey_inj hk he (congrArg Prod.fst hcontra)).symm
      · have hstep : extract_extra_fields (q :: rest) = extract_extra_fields rest := by
          simp [extract_extra_fields, he]
        rw [hstep]
        exact hrec

theorem extract_eq_nil {data : Record} (h : ∀ p ∈ data, isExtraKey p.1 = false) :
    extract_extra_fields data = [] := by
  unfold extract_extra_fields
  rw [List.filterMap_eq_nil_iff]
  intro a ha
  simp [h a ha]

theorem processVendor_create_extra {σ : Type} (env : Env σ) (s : σ) (item : Record) :
    ∀ inp, Call.vendorCreate inp ∈ (processVendor env s item).calls →
      inp.extra = (if (extract_extra_fields item).isEmpty then Option.none
        else some (extract_extra_fields item)) := by
  intro inp hmem
  unfold processVendor at hmem
  cases hS : pyStripVal (getVal item "name" (Value.str "")) with
  | error e => rw [hS] at hmem; simp at hmem
  | ok name =>
    rw [hS] at hmem
    by_cases hname : name = ""
    · simp [hname] at hmem
    · simp only [if_neg hname] at hmem
      rw [finishCreate_calls] at hmem
      simp only [List.mem_singleton] at hmem
      obtain rfl : inp = _ := Call.vendorCreate.inj hmem
      rfl

/-- C5: for a record with distinct keys (the dict invariant), the
extra-attribute extraction holds exactly one entry per `extra.`-prefixed
key, keyed by the stripped key with the value stringified (`None`
becoming the empty string), and nothing else; and a record with no
`extra.`-prefixed key makes the vendor-creation collaborator receive no
extra mapping (`None`) rather than an empty one. -/
theorem claim5_extra_extraction (data : Record) (hnd : (data.map Prod.fst).Nodup) :
    (∀ k v, (k, v) ∈ data → isExtraKey k = true →
      (extract_extra_fields data).count (stripExtraKey k, pyStrField v) = 1) ∧
    (∀ p ∈ extract_extra_fields data, ∃ k v, (k, v) ∈ data ∧ isExtraKey k = true ∧
      p = (stripExtraKey k, pyStrField v)) ∧
    (∀ k, (k, Value.null) ∈ data → isExtraKey k = true →
      (stripExtraKey k, "") ∈ extract_extra_fields data) ∧
    (∀ (σ : Type) (env : Env σ) (s : σ),
      (∀ p ∈ data, isExtraKey p.1 = false) →
      ∀ inp, Call.vendorCreate inp ∈ (processVendor env s data).calls →
        inp.extra = Option.none) := by
  refine ⟨count_extract_one data hnd, (fun p hp => (mem_extract_iff data p).mp hp), ?_, ?_⟩
  · intro k hm hk
    exact (mem_extract_iff data _).mpr ⟨k, Value.null, hm, hk, rfl⟩
  · intro σ env s hall inp hmem
    have h := processVendor_create_extra env s data inp hmem
    rw [extract_eq_nil hall] at h
    simpa using h

/-- Witness for C5 on a concrete record with two extra keys (one null)
and on a record with no extra key: the vendor-create call made for
`recVendorOk` carries `extra = none`. -/
theorem claim5_witness :
    (extract_extra_fields recExtra).count ("color", "red") = 1 ∧
    (extract_extra_fields recExtra).count ("note", "") = 1 ∧
    (VendorInput.mk "Acme" Value.null Value.null Value.null
      Option.none).extra = Option.none := by
  have h := claim5_extra_extraction recExtra (by decide)
  refine ⟨?_, ?_, ?_⟩
  · exact h.1 "extra.color" (Value.str "red") (by simp [recExtra]) (by decide)
  · exact h.1 "extra.note" Value.null (by simp [recExtra]) (by decide)
  · have hc : (processVendor okEnv () recVendorOk).calls
        = [Call.vendorCreate ⟨"Acme", Value.null, Value.null, Value.null,
            Option.none⟩] := rfl
    exact (claim5_extra_extraction recVendorOk (by decide)).2.2.2 Unit okEnv ()
      (by decide) _ (by rw [hc]; exact List.mem_singleton.mpr rfl)

/-- C6: tabular parsing fails the whole batch with the no-headers error
exactly when the tokenized input has no header row at all (before any
record is processed); a header-only input parses to the empty record
sequence, and every orchestrator maps the empty sequence to
`created = 0, failed = 0, errors = []`. -/
theorem claim6_csv_headers :
    (∀ rows : List (List String),
      parse_csv rows = Except.error "CSV file has no headers" ↔ rows = []) ∧
    (∀ header : List String, parse_csv [header] = Except.ok []) ∧
    (∀ (σ : Type) (env : Env σ) (s : σ),
      import_vendors env s [] = (⟨0, 0, []⟩, s) ∧
      import_filaments env s [] = (⟨0, 0, []⟩, s) ∧
      import_spools env s [] = (⟨0, 0, []⟩, s)) := by
  refine ⟨?_, ?_, ?_⟩
  · intro rows
    constructor
    · intro h
      cases rows with
      | nil => rfl
      | cons header rest => simp [parse_csv] at h
    · rintro rfl; rfl
  · intro header; simp [parse_csv]
  · intro σ env s
    exact ⟨rfl, rfl, rfl⟩

/-- Witness for C6 at concrete inputs: the empty input errors, a
header-only input parses to no records, and the empty record list
imports to the zero result. -/
theorem claim6_witness :
    parse_csv [] = Except.error "CSV file has no headers" ∧
    parse_csv [["name", "comment"]] = Except.ok [] ∧
    import_vendors okEnv () [] = (⟨0, 0, []⟩, ()) :=
  ⟨(claim6_csv_headers.1 []).mpr rfl,
    claim6_csv_headers.2.1 ["name", "comment"],
    (claim6_csv_headers.2.2 Unit okEnv ()).1⟩

/-- C7: structured parsing succeeds exactly on a decoded top-level
array, returning its elements verbatim as the record sequence, and
fails with the not-an-array error on every other decoded value
(including a single object or a scalar). -/
theorem claim7_json_array :
    (∀ xs : List Value, parse_json (Value.arr xs) = Except.ok xs) ∧
    (∀ v : Value, isList v = false →
      parse_json v = Except.error "JSON must contain an array of objects") := by
  constructor
  · intro xs; rfl
  · intro v hv
    cases v <;> first
      | rfl
      | exact absurd hv (by simp [isList])

/-- Witness for C7: a single object and a scalar both fail, a concrete
array of two objects parses verbatim. -/
theorem claim7_witness :
    parse_json (Value.obj [("name", Value.str "A")])
      = Except.error "JSON must contain an array of objects" ∧
    parse_json (Value.int 3)
      = Except.error "JSON must contain an array of objects" ∧
    parse_json (Value.arr [Value.obj [("name", Value.str "A")], Value.obj []])
      = Except.ok [Value.obj [("name", Value.str "A")], Value.obj []] :=
  ⟨claim7_json_array.2 _ rfl, claim7_json_array.2 _ rfl,
    claim7_json_array.1 _⟩

theorem resolveFilamentId_calls {σ : Type} (env : Env σ) (s : σ) (item : Record) :
    (resolveFilamentId env s item).2.2 = [] ∨
      (resolveFilamentId env s item).2.2
        = [Call.filamentFind (getV item "filament.name")] := by
  unfold resolveFilamentId
  by_cases h : truthy (getV item "filament.name")
  · right; simp [h]
  · left; simp [h]

/-- C8: a spool record whose filament reference does not resolve (the
resolution step yields no identifier) fails with exactly one failure
detail whose message names the attempted filament reference; spool
creation is never invoked for the record, and the orchestrator
continues with the following records.  The extraction hypotheses rule
out the earlier `AttributeError` exits on non-string `location`/
`lot_nr` values, which fail the record before resolution is reached. -/
theorem claim8_unresolved_filament {σ : Type} (env : Env σ) (s : σ) (item : Record)
    (hloc : ∃ x, getTruthyStrip item "location" = Except.ok x)
    (hlot : ∃ x, getTruthyStrip item "lot_nr" = Except.ok x)
    (hres : (resolveFilamentId env s item).1 = Option.none) :
    (processSpool env s item).out
        = Except.error ("Could not find filament: "
            ++ pyStrOf (getV item "filament.name")) ∧
    (∀ inp, Call.spoolCreate inp ∉ (processSpool env s item).calls) ∧
    (∀ rest : List Record,
      import_spools env s (item :: rest)
        = (⟨(importLoop (processSpool env) 2 (processSpool env s item).st rest).1.created,
            (importLoop (processSpool env) 2 (processSpool env s item).st rest).1.failed + 1,
            ⟨1, item,
              "Could not find filament: " ++ pyStrOf (getV item "filament.name")⟩ ::
              (importLoop (processSpool env) 2 (processSpool env s item).st rest).1.errors⟩,
          (importLoop (processSpool env) 2 (processSpool env s item).st rest).2)) := by
  obtain ⟨loc, hl⟩ := hloc
  obtain ⟨lot, hl2⟩ := hlot
  have hcalls := resolveFilamentId_calls env s item
  rcases hr : resolveFilamentId env s item with ⟨fid, s1, calls1⟩
  rw [hr] at hres
  simp only [] at hres
  subst hres
  have hstep : processSpool env s item
      = ⟨Except.error ("Could not find filament: "
            ++ pyStrOf (getV item "filament.name")), s1, calls1⟩ := by
    unfold processSpool
    rw [hl, hl2, hr]
  refine ⟨by rw [hstep], ?_, ?_⟩
  · intro inp hmem
    rw [hstep] at hmem
    rw [hr] at hcalls
    simp only [] at hcalls
    rcases hcalls with hc | hc <;> subst hc <;> simp at hmem
  · intro rest
    show importLoop (processSpool env) 1 s (item :: rest) = _
    simp only [importLoop, hstep]

/-- Witness for C8: a concrete spool record naming filament `PLA` under
an environment whose lookup finds nothing. -/
theorem claim8_witness :
    (processSpool okEnv () recSpoolUnresolved).out
      = Except.error "Could not find filament: PLA" :=
  (claim8_unresolved_filament okEnv () recSpoolUnresolved
    ⟨Option.none, rfl⟩ ⟨Option.none, rfl⟩ rfl).1

theorem isNull_eq_false {v : Value} (h : v ≠ Value.null) : isNull v = false := by
  cases v <;> first | exact absurd rfl h | rfl

/-- C9: required-field checks run before cross-entity resolution and
before creation.  For a filament record (with the pure string
extractions succeeding), a null-coerced `density` fails the record with
the density message, no collaborator call at all and the store state
untouched — regardless of `diameter` or any vendor reference; with
`density` present, a null-coerced `diameter` likewise fails first with
the diameter message and no calls.  For a vendor record, a name that
strips to empty fails the record before the creation call. -/
theorem claim9_required_before_resolution {σ : Type} (env : Env σ) (s : σ)
    (item : Record) (nm mt an : Option String)
    (hn : getTruthyStrip item "name" = Except.ok nm)
    (hm : getTruthyStrip item "material" = Except.ok mt)
    (ha : getTruthyStrip item "article_number" = Except.ok an) :
    (parse_value (getV item "density") "float" = Value.null →
      processFilament env s item
        = ⟨Except.error "'density' is required", s, []⟩) ∧
    (parse_value (getV item "density") "float" ≠ Value.null →
      parse_value (getV item "diameter") "float" = Value.null →
      processFilament env s item
        = ⟨Except.error "'diameter' is required", s, []⟩) ∧
    (∀ item2 : Record,
      pyStripVal (getVal item2 "name" (Value.str "")) = Except.ok "" →
      processVendor env s item2
        = ⟨Except.error "'name' is required", s, []⟩) := by
  refine ⟨?_, ?_, ?_⟩
  · intro hden
    unfold processFilament
    rw [hn, hm, ha, hden]
    rfl
  · intro hden hdia
    unfold processFilament
    rw [hn, hm, ha]
    simp [hdia, isNull_eq_false hden, isNull]
  · intro item2 hname
    unfold processVendor
    rw [hname]
    rfl

/-- Witness for C9: a filament record missing `density` (but carrying a
resolvable-looking vendor name), one missing only `diameter`, and a
vendor record with a blank name. -/
theorem claim9_witness :
    processFilament okEnv () recFilamentNoDensity
      = ⟨Except.error "'density' is required", (), []⟩ ∧
    processFilament okEnv () recFilamentNoDiameter
      = ⟨Except.error "'diameter' is required", (), []⟩ ∧
    processVendor okEnv () recVendorBad
      = ⟨Except.error "'name' is required", (), []⟩ := by
  have h1 := claim9_required_before_resolution okEnv ()
    recFilamentNoDensity (some "PLA") Option.none Option.none rfl rfl rfl
  have h2 := claim9_required_before_resolution okEnv ()
    recFilamentNoDiameter Option.none Option.none Option.none rfl rfl rfl
  refine ⟨h1.1 rfl, h2.2.1 ?_ rfl, h2.2.2 recVendorBad rfl⟩
  intro hcontra
  have h4 : isNull (parse_value (getV recFilamentNoDiameter "density") "float")
      = false := rfl
  rw [hcontra] at h4
  exact absurd h4 (by decide)

/-- C10 counterexample: the claim says the vendor lookup is attempted
"only for a non-empty `vendor.name` string", but a truthy non-string
value (here the integer 5, as structured input can carry) also triggers
the lookup — the guard is Python truthiness, not string-ness. -/
theorem claim10_counterexample :
    getV recFilamentIntVendor "vendor.name" = Value.int 5 ∧
    Call.vendorFind (Value.int 5)
      ∈ (processFilament okEnv () recFilamentIntVendor).calls := by
  exact ⟨rfl, List.Mem.head _⟩

/-- C10 amended: in `import_filaments` (with the pure string
extractions succeeding and both required fields non-null), the vendor
lookup is attempted exactly when `vendor.name` holds a truthy value —
for string values, exactly the non-empty ones; an absent key, a null or
an empty string is falsy and triggers no lookup at all, the filament is
assembled with a null vendor identifier, and the record still succeeds
whenever the creation collaborator succeeds; and when the lookup runs
but returns no match, the record likewise proceeds to creation with a
null vendor identifier rather than failing. -/
theorem claim10_vendor_resolution {σ : Type} (env : Env σ) (s : σ)
    (item : Record) (nm mt an : Option String)
    (hn : getTruthyStrip item "name" = Except.ok nm)
    (hm : getTruthyStrip item "material" = Except.ok mt)
    (ha : getTruthyStrip item "article_number" = Except.ok an)
    (hden : parse_value (getV item "density") "float" ≠ Value.null)
    (hdia : parse_value (getV item "diameter") "float" ≠ Value.null) :
    (truthy (getV item "vendor.name") = false →
      ∃ inp : FilamentInput,
        (processFilament env s item).calls = [Call.filamentCreate inp] ∧
        inp.vendor_id = Option.none ∧
        ((env.filamentCreate s inp).1 = Except.ok () →
          (processFilament env s item).out = Except.ok ())) ∧
    (truthy (getV item "vendor.name") = true →
      (env.vendorFind s (getV item "vendor.name")).1 = [] →
      ∃ inp : FilamentInput,
        (processFilament env s item).calls
          = [Call.vendorFind (getV item "vendor.name"), Call.filamentCreate inp] ∧
        inp.vendor_id = Option.none ∧
        ((env.filamentCreate (env.vendorFind s (getV item "vendor.name")).2 inp).1
            = Except.ok () →
          (processFilament env s item).out = Except.ok ())) := by
  constructor
  · intro htr
    simp only [processFilament]
    rw [hn, hm, ha]
    simp [htr, isNull_eq_false hden, isNull_eq_false hdia]
    exact ⟨_, by rw [finishCreate_calls], rfl,
      fun hok => finishCreate_out_ok _ _ hok⟩
  · intro htr hfind
    simp only [processFilament]
    rw [hn, hm, ha]
    simp [htr, isNull_eq_false hden, isNull_eq_false hdia, hfind]
    exact ⟨_, by rw [finishCreate_calls], rfl,
      fun hok => finishCreate_out_ok _ _ hok⟩

/-- Witness for C10 amended: a concrete filament record with no
`vendor.name` key still imports successfully under a creating
environment. -/
theorem claim10_witness :
    (processFilament okEnv () recFilamentOk).out = Except.ok () := by
  have hden : parse_value (getV recFilamentOk "density") "float" ≠ Value.null := by
    intro h
    have h2 : isNull (parse_value (getV recFilamentOk "density") "float")
        = false := rfl
    rw [h] at h2
    exact absurd h2 (by decide)
  have hdia : parse_value (getV recFilamentOk "diameter") "float" ≠ Value.null := by
    intro h
    have h2 : isNull (parse_value (getV recFilamentOk "diameter") "float")
        = false := rfl
    rw [h] at h2
    exact absurd h2 (by decide)
  obtain ⟨inp, hcalls, hvid, hok⟩ :=
    (claim10_vendor_resolution okEnv () recFilamentOk Option.none Option.none
      Option.none rfl rfl rfl hden hdia).1 rfl
  exact hok rfl

/-- Witness for C2: a two-record vendor batch whose second record fails
has its single failure detail pointing back at position 2. -/
theorem claim2_witness :
    ([recVendorOk, recVendorBad] : List Record)[(2 : Nat) - 1]? = some recVendorBad := by
  have herr : (import_vendors okEnv () [recVendorOk, recVendorBad]).1.errors
      = [⟨2, recVendorBad, "'name' is required"⟩] := rfl
  exact ((claim2_row_numbering okEnv () [recVendorOk, recVendorBad]).1.1
    ⟨2, recVendorBad, "'name' is required"⟩
    (by rw [herr]; exact List.mem_singleton.mpr rfl)).2.2
